import Mathlib

/-!
Shallow embedding of `src/streamlit_app.py` (an AI data-insight Streamlit
app): the Gemini API call helper, the five prompt templates, the report
assembler, the PDF exporter and the top-level gating of the script, together
with theorems checking the specification's claims about them.

Python values that flow through the pipeline are JSON values as produced by
`response.json()`; Python `None` and JSON `null` are one and the same value
there, represented by `Json.null`.
-/

/-- JSON values, as returned by `response.json()` in Python.  `Json.null` is
Python `None`. -/
inductive Json where
  | null : Json
  | bool : Bool → Json
  | num : Int → Json
  | str : String → Json
  | arr : List Json → Json
  | obj : List (String × Json) → Json

/-- Python `str()` as applied by f-string interpolation (`f"...{x}..."`).
The pipeline only ever interpolates values returned by `call_gemini_api`;
every theorem below depends only on the `null` (Python `None` prints as
`"None"`) and `str` (a string interpolates verbatim) cases.  The rendering
of nested lists/dicts abstracts Python `repr` by a marker, as no claim
inspects it. -/
def pyStr : Json → String
  | Json.null => "None"
  | Json.bool b => if b then "True" else "False"
  | Json.num n => toString n
  | Json.str s => s
  | Json.arr _ => "<list>"
  | Json.obj _ => "<dict>"

/-- The HTTP request built by `call_gemini_api` (line 12-21 of the source):
fixed URL, bearer-token header, JSON envelope around the prompt. -/
structure HttpRequest where
  url : String
  authorization : String
  contentType : String
  body : Json

/-- The response of `requests.post`: status code, raw body text, and the
body as parsed by `.json()` (`none` when the body is not valid JSON, in
which case `.json()` raises). -/
structure HttpResponse where
  status_code : Nat
  text : String
  json : Option Json

/-- `geminiRequest api_key prompt`: the exact request the source posts
(lines 12-21). -/
def geminiRequest (api_key prompt : String) : HttpRequest :=
  { url := "https://generativelanguage.googleapis.com/v1beta/models/gemini-pro:generateContent"
    authorization := "Bearer " ++ api_key
    contentType := "application/json"
    body := Json.obj [("contents", Json.arr [Json.obj [("parts", Json.arr [Json.obj [("text", Json.str prompt)]])]])] }

/-- Dictionary lookup `j[key]`, `none` when absent or not a dict. -/
def jsonGet (j : Json) (key : String) : Option Json :=
  match j with
  | Json.obj fields => fields.lookup key
  | _ => none

/-- List indexing `j[i]`, `none` when out of range or not a list. -/
def jsonIndex (j : Json) (i : Nat) : Option Json :=
  match j with
  | Json.arr xs => xs.get? i
  | _ => none

/-- The extraction path of line 25 of the source:
`res["candidates"][0]["content"]["parts"][0]["text"]`.  `none` when any step
fails (Python raises KeyError / IndexError / TypeError there). -/
def extractText (res : Json) : Option Json := do
  let c ← jsonGet res "candidates"
  let c0 ← jsonIndex c 0
  let content ← jsonGet c0 "content"
  let parts ← jsonGet content "parts"
  let p0 ← jsonIndex parts 0
  jsonGet p0 "text"

/-- What one invocation of `call_gemini_api` does observably: the `st.error`
messages it shows, and either a normal return value (`Except.ok`) or an
uncaught Python exception (`Except.error`). -/
structure CallOutcome where
  errorsShown : List String
  ret : Except String Json

/-- `call_gemini_api(api_key, prompt)` (lines 11-28 of the source), with the
network abstracted as a function from the posted request to its response.
On 200 it parses the body and returns the extracted text value; on any other
status it shows `st.error` with the raw body and returns `None`
(`Json.null`).  A 200 response whose body is not JSON or lacks the
extraction path raises (blind indexing in the source). -/
def call_gemini_api (net : HttpRequest → HttpResponse) (api_key prompt : String) : CallOutcome :=
  let response := net (geminiRequest api_key prompt)
  if response.status_code = 200 then
    match response.json with
    | none => { errorsShown := [], ret := Except.error "JSONDecodeError" }
    | some res =>
      match extractText res with
      | some v => { errorsShown := [], ret := Except.ok v }
      | none => { errorsShown := [], ret := Except.error "LookupError" }
  else
    { errorsShown := ["Gemini API Error: " ++ response.text], ret := Except.ok Json.null }

/-- The uploaded table: pandas DataFrame restricted to what the app reads
(column names and rows, cells rendered as text). -/
structure DataFrame where
  columns : List String
  rows : List (List String)

/-- `df.head(n)`: the first `n` rows. -/
def DataFrame.head (df : DataFrame) (n : Nat) : DataFrame :=
  { columns := df.columns, rows := df.rows.take n }

/-- `df.to_csv(index=False)`: header line of comma-joined column names, then
one comma-joined line per row (cell quoting elided: no claim exercises cells
containing delimiters). -/
def DataFrame.to_csv (df : DataFrame) : String :=
  String.intercalate "," df.columns ++ "\n"
    ++ String.join (df.rows.map (fun r => String.intercalate "," r ++ "\n"))

/-- Stage 1 prompt (line 72 of the source). -/
def profile_prompt (df : DataFrame) : String :=
  "You are an expert data analyst. Here are the top 2 rows:\n"
    ++ (df.head 2).to_csv
    ++ "\n\nColumn names: " ++ String.intercalate ", " df.columns
    ++ "\n\nProfile this data and guess the domain/use-case. Return the profile, types, missing values, and business context."

/-- Stage 2 prompt (line 81): embeds stage 1's result via f-string. -/
def cleaning_prompt (profile_result : Json) : String :=
  "Given this data profile:\n" ++ pyStr profile_result
    ++ "\nSuggest cleaning steps and apply them. Return python code for cleaning and a summary of changes."

/-- Stage 3 prompt (line 90): a fixed f-string with no interpolation. -/
def metrics_prompt : String :=
  "Based on the cleaned data and profile, identify the most important KPIs and metrics to track. Suggest feature engineering if any. Output metric definitions and a sample calculation."

/-- Stage 4 prompt (line 99): embeds stage 3's result via f-string. -/
def analysis_prompt (metrics_result : Json) : String :=
  "Given the data and metrics:\n" ++ pyStr metrics_result
    ++ "\nPerform exploratory data analysis and highlight hidden patterns, outliers, or unusual trends."

/-- Stage 5 prompt (line 108): a fixed f-string with no interpolation. -/
def insights_prompt : String :=
  "Summarize actionable business insights and recommendations from the previous analysis. Focus on recent performance, possible optimizations, and next steps."

/-- Python string concatenation `s + v` where `v` is an arbitrary value:
succeeds only when `v` is a string, otherwise raises `TypeError`.  Used by
the report assembly on lines 117-123. -/
def pyAdd (s : String) (v : Json) : Except String String :=
  match v with
  | Json.str t => Except.ok (s ++ t)
  | _ => Except.error "TypeError"

/-- `full_report` (lines 117-123): left-to-right `+`-concatenation of the
five labels and stage results.  Raises `TypeError` at the first non-string
stage result. -/
def full_report (profile_result cleaning_result metrics_result analysis_result insights_result : Json) :
    Except String String := do
  let s1 ← pyAdd "DATA PROFILE:\n" profile_result
  let s2 ← pyAdd (s1 ++ "\n\n" ++ "DATA CLEANING STEPS:\n") cleaning_result
  let s3 ← pyAdd (s2 ++ "\n\n" ++ "KEY METRICS & FEATURES:\n") metrics_result
  let s4 ← pyAdd (s3 ++ "\n\n" ++ "HIDDEN PATTERNS & ANALYSIS:\n") analysis_result
  let s5 ← pyAdd (s4 ++ "\n\n" ++ "ACTIONABLE INSIGHTS & RECOMMENDATIONS:\n") insights_result
  Except.ok (s5 ++ "\n\n")

/-- Substring machinery: `isPrefixOfChars pat l` is true when `pat` is an
initial segment of `l`. -/
def isPrefixOfChars : List Char → List Char → Bool
  | [], _ => true
  | _ :: _, [] => false
  | a :: as, b :: bs => a == b && isPrefixOfChars as bs

/-- `containsChars pat l`: `pat` occurs contiguously inside `l`. -/
def containsChars (pat : List Char) : List Char → Bool
  | [] => isPrefixOfChars pat []
  | c :: rest => isPrefixOfChars pat (c :: rest) || containsChars pat rest

/-- `strContains s pat`: `pat` is a substring of `s`. -/
def strContains (s pat : String) : Bool :=
  containsChars pat.data s.data

theorem isPrefixOfChars_append (l m : List Char) : isPrefixOfChars l (l ++ m) = true := by
  induction l with
  | nil => rfl
  | cons a as ih => simp [isPrefixOfChars, ih]

theorem containsChars_of_isPrefix (pat l : List Char) (h : isPrefixOfChars pat l = true) :
    containsChars pat l = true := by
  cases l with
  | nil => simpa [containsChars] using h
  | cons c rest => simp [containsChars, h]

theorem containsChars_middle (a s b : List Char) : containsChars s (a ++ (s ++ b)) = true := by
  induction a with
  | nil =>
    exact containsChars_of_isPrefix _ _ (isPrefixOfChars_append s b)
  | cons x xs ih =>
    simp only [List.cons_append, containsChars, List.append_eq, ih, Bool.or_true]

theorem strContains_middle (a s b : String) : strContains (a ++ s ++ b) s = true := by
  simpa [strContains, String.data_append] using containsChars_middle a.data s.data b.data

/-- The observable trace of one pipeline run (the body of the
`st.button("Generate Report")` block, lines 59-123): the on-screen preview,
the five prompts sent (`pN`), the five stage results (`rN`), the `st.error`
messages shown, the `st.write` calls per stage, and the assembled report
(which can itself raise, line 117). -/
structure Trace where
  preview : DataFrame
  p1 : String
  r1 : Json
  p2 : String
  r2 : Json
  p3 : String
  r3 : Json
  p4 : String
  r4 : Json
  p5 : String
  r5 : Json
  errorsShown : List String
  writes : List Json
  report : Except String String

/-- The five pipeline stages plus report assembly (lines 69-123), run
strictly in order with no branching between stages; an uncaught exception
inside `call_gemini_api` aborts the run (`Except.error`). -/
def runPipeline (net : HttpRequest → HttpResponse) (api_key : String) (df : DataFrame) :
    Except String Trace := do
  let preview := df.head 10
  let p1 := profile_prompt df
  let c1 := call_gemini_api net api_key p1
  let r1 ← c1.ret
  let p2 := cleaning_prompt r1
  let c2 := call_gemini_api net api_key p2
  let r2 ← c2.ret
  let p3 := metrics_prompt
  let c3 := call_gemini_api net api_key p3
  let r3 ← c3.ret
  let p4 := analysis_prompt r3
  let c4 := call_gemini_api net api_key p4
  let r4 ← c4.ret
  let p5 := insights_prompt
  let c5 := call_gemini_api net api_key p5
  let r5 ← c5.ret
  Except.ok
    { preview := preview
      p1 := p1, r1 := r1, p2 := p2, r2 := r2, p3 := p3, r3 := r3
      p4 := p4, r4 := r4, p5 := p5, r5 := r5
      errorsShown := c1.errorsShown ++ c2.errorsShown ++ c3.errorsShown
        ++ c4.errorsShown ++ c5.errorsShown
      writes := [r1, r2, r3, r4, r5]
      report := full_report r1 r2 r3 r4 r5 }

/-- An uploaded file: its name and the table the pandas readers
(`pd.read_csv` / `pd.read_excel`, lines 61-64) produce from its contents. -/
structure UploadedFile where
  name : String
  table : DataFrame

/-- What the top-level script shows and does (lines 55-137). -/
structure ScriptOutcome where
  successMsgs : List String
  warnings : List String
  ran : Option (Except String Trace)

/-- The warning of line 137. -/
def gateWarning : String :=
  "Please enter your Gemini API key and upload a dataset to proceed."

/-- The top-level script (lines 55-137): the pipeline is gated behind a
non-empty API key (Python truthiness of the string), a present upload, and
the button press. -/
def appScript (net : HttpRequest → HttpResponse) (api_key : String)
    (uploaded_file : Option UploadedFile) (buttonPressed : Bool) : ScriptOutcome :=
  match uploaded_file with
  | none =>
    { successMsgs := [], warnings := [gateWarning], ran := none }
  | some f =>
    if api_key = "" then
      { successMsgs := [], warnings := [gateWarning], ran := none }
    else if buttonPressed then
      { successMsgs := ["API key and data file received!"], warnings := []
        ran := some (runPipeline net api_key f.table) }
    else
      { successMsgs := ["API key and data file received!"], warnings := [], ran := none }

/-- `report_text.split(chr(10))` on the character list: split on newline;
the empty text yields one empty line, as in Python. -/
def splitLines : List Char → List (List Char)
  | [] => [[]]
  | c :: rest =>
    if c = '\n' then [] :: splitLines rest
    else
      match splitLines rest with
      | [] => [[c]]
      | l :: ls => (c :: l) :: ls

/-- A character the latin-1 single-byte encoding of the PDF core fonts can
represent.  Modelled from the spec: the external FPDF layout engine (§4.4)
raises a unicode-encoding error when a line contains a character outside
this range, and otherwise lays the text out without failing. -/
def latin1Encodable (c : Char) : Bool := c.toNat ≤ 255

/-- Printable ASCII, the range the export claim quantifies over. -/
def printableAscii (c : Char) : Bool := 32 ≤ c.toNat && c.toNat ≤ 126

/-- Split a list into chunks of `n + 1` elements (the last may be
shorter). -/
def chunksSucc (n : Nat) : List α → List (List α)
  | [] => []
  | x :: xs => (x :: xs).take (n + 1) :: chunksSucc n (xs.drop n)
termination_by l => l.length
decreasing_by simp [List.length_drop]; omega

/-- One `pdf.multi_cell(0, 10, line)` call: the line becomes a sequence of
wrapped cells.  Modelled from the spec: the character capacity of one
full-width cell abstracts the font metrics of the external layout engine as
a fixed 80 characters; an empty line still produces one (empty) cell. -/
def multiCellWrap (line : List Char) : List (List Char) :=
  match line with
  | [] => [[]]
  | c :: rest => chunksSucc 79 (c :: rest)

/-- All wrapped cells of the report, in document order. -/
def pdfCells (report_text : String) : List (List Char) :=
  ((splitLines report_text.data).map multiCellWrap).flatten

/-- How many cells fit on one page.  Modelled from the spec: automatic page
breaks of the external layout engine, abstracted as a fixed capacity of 26
cells (A4 height, 10-unit cells, default margins). -/
def cellsPerPage : Nat := 26

/-- The in-memory binary buffer produced by `pdf.output(buffer)`: the laid
out pages, each a list of cells. -/
structure PdfBuffer where
  pages : List (List (List Char))

/-- `create_pdf` (lines 35-44 of the source): one page added up front, then
every line of the report added as wrapped cells, with automatic page breaks;
raises when some character cannot be encoded for the core font. -/
def create_pdf (report_text : String) : Except String PdfBuffer :=
  let lines := splitLines report_text.data
  if lines.all (fun line => line.all latin1Encodable) then
    let cells := pdfCells report_text
    Except.ok { pages := if cells.isEmpty then [[]] else chunksSucc (cellsPerPage - 1) cells }
  else
    Except.error "UnicodeEncodeError"

/-- A network that always answers HTTP 500 with body "backend down". -/
def netFail : HttpRequest → HttpResponse := fun _ =>
  { status_code := 500, text := "backend down", json := none }

/-- A response body with the expected candidates shape around `s`. -/
def okBody (s : String) : Json :=
  Json.obj [("candidates", Json.arr [Json.obj [("content",
    Json.obj [("parts", Json.arr [Json.obj [("text", Json.str s)]])])]])]

/-- A 200 response carrying `okBody s`. -/
def ok200 (s : String) : HttpResponse :=
  { status_code := 200, text := "", json := some (okBody s) }

/-- A network that answers every request with the generated text "ZQZQ". -/
def netZQ : HttpRequest → HttpResponse := fun _ => ok200 "ZQZQ"

/-- A network answering 200 whose JSON body lacks the "candidates" key. -/
def netMalformed : HttpRequest → HttpResponse := fun _ =>
  { status_code := 200, text := "ok", json := some (Json.obj []) }

/-- The dataset of the spec's stage-1 example: columns a, b and rows
1,2 and 3,4. -/
def dfAB : DataFrame := { columns := ["a", "b"], rows := [["1", "2"], ["3", "4"]] }

/-- The trace of a run against `netZQ` on `dfAB`. -/
def traceZQ : Trace :=
  { preview := dfAB.head 10
    p1 := profile_prompt dfAB, r1 := Json.str "ZQZQ"
    p2 := cleaning_prompt (Json.str "ZQZQ"), r2 := Json.str "ZQZQ"
    p3 := metrics_prompt, r3 := Json.str "ZQZQ"
    p4 := analysis_prompt (Json.str "ZQZQ"), r4 := Json.str "ZQZQ"
    p5 := insights_prompt, r5 := Json.str "ZQZQ"
    errorsShown := []
    writes := [Json.str "ZQZQ", Json.str "ZQZQ", Json.str "ZQZQ", Json.str "ZQZQ", Json.str "ZQZQ"]
    report := full_report (Json.str "ZQZQ") (Json.str "ZQZQ") (Json.str "ZQZQ")
      (Json.str "ZQZQ") (Json.str "ZQZQ") }

theorem splitLines_ne_nil (l : List Char) : splitLines l ≠ [] := by
  induction l with
  | nil => simp [splitLines]
  | cons c rest ih =>
    simp only [splitLines]
    by_cases h : c = '\n'
    · simp [h]
    · rw [if_neg h]
      cases hsl : splitLines rest with
      | nil => simp
      | cons l ls => simp

theorem mem_of_mem_splitLines (l : List Char) :
    ∀ line ∈ splitLines l, ∀ c ∈ line, c ∈ l := by
  induction l with
  | nil =>
    intro line hline c hc
    simp [splitLines] at hline
    subst hline
    simp at hc
  | cons x rest ih =>
    intro line hline c hc
    simp only [splitLines] at hline
    by_cases hx : x = '\n'
    · rw [if_pos hx] at hline
      rcases List.mem_cons.mp hline with h | h
      · subst h; simp at hc
      · exact List.mem_cons_of_mem _ (ih line h c hc)
    · rw [if_neg hx] at hline
      cases hsl : splitLines rest with
      | nil => exact absurd hsl (splitLines_ne_nil rest)
      | cons l0 ls =>
        rw [hsl] at hline
        rcases List.mem_cons.mp hline with h | h
        · subst h
          rcases List.mem_cons.mp hc with h2 | h2
          · subst h2; exact List.mem_cons_self _ _
          · refine List.mem_cons_of_mem _ (ih l0 ?_ c h2)
            rw [hsl]
            exact List.mem_cons_self _ _
        · refine List.mem_cons_of_mem _ (ih line ?_ c hc)
          rw [hsl]
          exact List.mem_cons_of_mem _ h

theorem chunksSucc_ne_nil (n : Nat) (l : List α) (h : l ≠ []) : chunksSucc n l ≠ [] := by
  cases l with
  | nil => exact absurd rfl h
  | cons x xs => simp [chunksSucc]

theorem chunksSucc_length_gt (n : Nat) (x : α) (xs : List α) (h : n < xs.length) :
    1 < (chunksSucc n (x :: xs)).length := by
  have hdrop : xs.drop n ≠ [] := by
    intro hh
    have := List.drop_eq_nil_iff.mp hh
    omega
  have hne := chunksSucc_ne_nil n (xs.drop n) hdrop
  simp only [chunksSucc, List.length_cons]
  cases hc : chunksSucc n (xs.drop n) with
  | nil => exact absurd hc hne
  | cons a as => simp [hc]

theorem exceptBind_ok {α β ε : Type} (a : α) (f : α → Except ε β) :
    (Except.ok a : Except ε α) >>= f = f a := rfl

theorem call_ret_non200 (net : HttpRequest → HttpResponse) (key p : String)
    (hs : (net (geminiRequest key p)).status_code ≠ 200) :
    call_gemini_api net key p
      = { errorsShown := ["Gemini API Error: " ++ (net (geminiRequest key p)).text]
          ret := Except.ok Json.null } := by
  simp [call_gemini_api, hs]

/-- C1 (counterexample): when stage 1 failed and its StageResult is the
`None` sentinel, report assembly does not produce the labelled report with a
placeholder — the string concatenation of line 118 raises `TypeError`, so
assembly aborts. -/
theorem assembleReportAbortsOnFailedStage :
    full_report Json.null (Json.str "b") (Json.str "c") (Json.str "d") (Json.str "e")
      = Except.error "TypeError" := rfl

/-- C1 (amended): when all five StageResults are strings, the assembled
report is exactly the five fixed section labels in fixed order, each
followed by that stage's result, joined with blank-line separators; when
any of the five stages failed (its result is `None`), assembly raises
`TypeError` instead of never aborting. -/
theorem assembleReportFixedSections :
    (∀ p c m a i : String,
      full_report (Json.str p) (Json.str c) (Json.str m) (Json.str a) (Json.str i)
        = Except.ok ("DATA PROFILE:\n" ++ p ++ "\n\n" ++ "DATA CLEANING STEPS:\n" ++ c
            ++ "\n\n" ++ "KEY METRICS & FEATURES:\n" ++ m ++ "\n\n"
            ++ "HIDDEN PATTERNS & ANALYSIS:\n" ++ a ++ "\n\n"
            ++ "ACTIONABLE INSIGHTS & RECOMMENDATIONS:\n" ++ i ++ "\n\n")) ∧
    (∀ r1 r2 r3 r4 r5 : Json,
      r1 = Json.null ∨ r2 = Json.null ∨ r3 = Json.null ∨ r4 = Json.null ∨ r5 = Json.null →
      full_report r1 r2 r3 r4 r5 = Except.error "TypeError") := by
  constructor
  · intro p c m a i
    simp [full_report, pyAdd, exceptBind_ok, String.append_assoc]
  · intro r1 r2 r3 r4 r5 h
    rcases h with h | h | h | h | h
    · subst h; rfl
    · subst h; cases r1 <;> rfl
    · subst h; cases r1 <;> cases r2 <;> rfl
    · subst h; cases r1 <;> cases r2 <;> cases r3 <;> rfl
    · subst h; cases r1 <;> cases r2 <;> cases r3 <;> cases r4 <;> rfl

/-- Witness: assembly aborts at a concrete run where only stage 2 failed. -/
theorem assembleReportFixedSectionsWitness :
    (Json.str "a" = Json.null ∨ Json.null = Json.null ∨ Json.str "c" = Json.null
      ∨ Json.str "d" = Json.null ∨ Json.str "e" = Json.null) ∧
    full_report (Json.str "a") Json.null (Json.str "c") (Json.str "d") (Json.str "e")
      = Except.error "TypeError" :=
  ⟨Or.inr (Or.inl rfl),
   assembleReportFixedSections.2 (Json.str "a") Json.null (Json.str "c") (Json.str "d")
     (Json.str "e") (Or.inr (Or.inl rfl))⟩

/-- C7: for the dataset with columns a, b and rows 1,2 and 3,4, stage 1's
prompt contains the literal substring "a,b" and the literal 2-row CSV body
(lines "1,2" and "3,4"), produced from the first 2 rows and the
comma-joined column name list. -/
theorem profilePromptEmbedsSampleRows :
    strContains (profile_prompt dfAB) "a,b" = true ∧
    strContains (profile_prompt dfAB) "1,2" = true ∧
    strContains (profile_prompt dfAB) "3,4" = true ∧
    (dfAB.head 2).to_csv = "a,b\n1,2\n3,4\n" ∧
    String.intercalate ", " dfAB.columns = "a, b" := by
  refine ⟨?_, ?_, ?_, ?_, ?_⟩ <;> rfl

/-- C10: a failed remote call returns the `None` sentinel, and the
downstream f-string prompts of stages 2 and 4 then embed the literal
four-character text "None" where the prior result would be, not an empty
string. -/
theorem failedStageEmbedsNoneText (net : HttpRequest → HttpResponse) (key p : String)
    (h : (net (geminiRequest key p)).status_code ≠ 200) :
    (call_gemini_api net key p).ret = Except.ok Json.null ∧
    strContains (cleaning_prompt Json.null) "None" = true ∧
    cleaning_prompt Json.null ≠ cleaning_prompt (Json.str "") ∧
    strContains (analysis_prompt Json.null) "None" = true ∧
    analysis_prompt Json.null ≠ analysis_prompt (Json.str "") := by
  refine ⟨?_, ?_, ?_, ?_, ?_⟩
  · simp [call_ret_non200 net key p h]
  · rfl
  · decide
  · rfl
  · decide

/-- Witness for the `None`-embedding theorem at the concrete failing
network. -/
theorem failedStageEmbedsNoneTextWitness :
    (netFail (geminiRequest "k" "p")).status_code ≠ 200 ∧
    (call_gemini_api netFail "k" "p").ret = Except.ok Json.null ∧
    strContains (cleaning_prompt Json.null) "None" = true :=
  ⟨by decide,
   (failedStageEmbedsNoneText netFail "k" "p" (by decide)).1,
   (failedStageEmbedsNoneText netFail "k" "p" (by decide)).2.1⟩

/-- C3: whenever every remote call returns (in particular when some of them
fail with a non-200 status), the pipeline run completes all five stages in
their fixed order: all five prompts are built and sent, a stage whose
response was non-200 gets the `None` sentinel as its StageResult, and the
later prompts are built from whatever partial results exist. -/
theorem pipelineAttemptsAllStages (net : HttpRequest → HttpResponse) (key : String)
    (df : DataFrame)
    (h : ∀ p, ∃ v, (call_gemini_api net key p).ret = Except.ok v) :
    ∃ t, runPipeline net key df = Except.ok t ∧
      t.p1 = profile_prompt df ∧
      t.p2 = cleaning_prompt t.r1 ∧
      t.p3 = metrics_prompt ∧
      t.p4 = analysis_prompt t.r3 ∧
      t.p5 = insights_prompt ∧
      ((net (geminiRequest key t.p1)).status_code ≠ 200 → t.r1 = Json.null) ∧
      ((net (geminiRequest key t.p2)).status_code ≠ 200 → t.r2 = Json.null) ∧
      ((net (geminiRequest key t.p3)).status_code ≠ 200 → t.r3 = Json.null) ∧
      ((net (geminiRequest key t.p4)).status_code ≠ 200 → t.r4 = Json.null) ∧
      ((net (geminiRequest key t.p5)).status_code ≠ 200 → t.r5 = Json.null) := by
  obtain ⟨v1, h1⟩ := h (profile_prompt df)
  obtain ⟨v2, h2⟩ := h (cleaning_prompt v1)
  obtain ⟨v3, h3⟩ := h metrics_prompt
  obtain ⟨v4, h4⟩ := h (analysis_prompt v3)
  obtain ⟨v5, h5⟩ := h insights_prompt
  refine ⟨{ preview := df.head 10
            p1 := profile_prompt df, r1 := v1
            p2 := cleaning_prompt v1, r2 := v2
            p3 := metrics_prompt, r3 := v3
            p4 := analysis_prompt v3, r4 := v4
            p5 := insights_prompt, r5 := v5
            errorsShown := (call_gemini_api net key (profile_prompt df)).errorsShown
              ++ (call_gemini_api net key (cleaning_prompt v1)).errorsShown
              ++ (call_gemini_api net key metrics_prompt).errorsShown
              ++ (call_gemini_api net key (analysis_prompt v3)).errorsShown
              ++ (call_gemini_api net key insights_prompt).errorsShown
            writes := [v1, v2, v3, v4, v5]
            report := full_report v1 v2 v3 v4 v5 },
    ?_, rfl, rfl, rfl, rfl, rfl, ?_, ?_, ?_, ?_, ?_⟩
  · simp [runPipeline, h1, h2, h3, h4, h5, exceptBind_ok]
  · intro hs
    have := h1.symm.trans (congrArg CallOutcome.ret (call_ret_non200 net key (profile_prompt df) hs))
    injection this
  · intro hs
    have := h2.symm.trans (congrArg CallOutcome.ret (call_ret_non200 net key (cleaning_prompt v1) hs))
    injection this
  · intro hs
    have := h3.symm.trans (congrArg CallOutcome.ret (call_ret_non200 net key metrics_prompt hs))
    injection this
  · intro hs
    have := h4.symm.trans (congrArg CallOutcome.ret (call_ret_non200 net key (analysis_prompt v3) hs))
    injection this
  · intro hs
    have := h5.symm.trans (congrArg CallOutcome.ret (call_ret_non200 net key insights_prompt hs))
    injection this

/-- Witness: against the always-failing network every hypothesis holds and
the pipeline still runs all five stages. -/
theorem pipelineAttemptsAllStagesWitness :
    ∃ t, runPipeline netFail "k" dfAB = Except.ok t ∧
      t.p1 = profile_prompt dfAB ∧
      t.p2 = cleaning_prompt t.r1 ∧
      t.p3 = metrics_prompt ∧
      t.p4 = analysis_prompt t.r3 ∧
      t.p5 = insights_prompt ∧
      ((netFail (geminiRequest "k" t.p1)).status_code ≠ 200 → t.r1 = Json.null) ∧
      ((netFail (geminiRequest "k" t.p2)).status_code ≠ 200 → t.r2 = Json.null) ∧
      ((netFail (geminiRequest "k" t.p3)).status_code ≠ 200 → t.r3 = Json.null) ∧
      ((netFail (geminiRequest "k" t.p4)).status_code ≠ 200 → t.r4 = Json.null) ∧
      ((netFail (geminiRequest "k" t.p5)).status_code ≠ 200 → t.r5 = Json.null) :=
  pipelineAttemptsAllStages netFail "k" dfAB (fun _ => ⟨Json.null, rfl⟩)

theorem exceptBind_error {α β ε : Type} (e : ε) (f : α → Except ε β) :
    (Except.error e : Except ε α) >>= f = Except.error e := rfl

theorem runPipeline_ok_shape (net : HttpRequest → HttpResponse) (key : String)
    (df : DataFrame) (t : Trace) (ht : runPipeline net key df = Except.ok t) :
    t.preview = df.head 10 ∧
    t.p1 = profile_prompt df ∧
    t.p2 = cleaning_prompt t.r1 ∧
    t.p3 = metrics_prompt ∧
    t.p4 = analysis_prompt t.r3 ∧
    t.p5 = insights_prompt ∧
    t.writes = [t.r1, t.r2, t.r3, t.r4, t.r5] ∧
    t.report = full_report t.r1 t.r2 t.r3 t.r4 t.r5 := by
  simp only [runPipeline] at ht
  cases h1 : (call_gemini_api net key (profile_prompt df)).ret with
  | error e => simp only [h1, exceptBind_error] at ht; exact Except.noConfusion ht
  | ok v1 =>
    simp only [h1, exceptBind_ok] at ht
    cases h2 : (call_gemini_api net key (cleaning_prompt v1)).ret with
    | error e => simp only [h2, exceptBind_error] at ht; exact Except.noConfusion ht
    | ok v2 =>
      simp only [h2, exceptBind_ok] at ht
      cases h3 : (call_gemini_api net key metrics_prompt).ret with
      | error e => simp only [h3, exceptBind_error] at ht; exact Except.noConfusion ht
      | ok v3 =>
        simp only [h3, exceptBind_ok] at ht
        cases h4 : (call_gemini_api net key (analysis_prompt v3)).ret with
        | error e => simp only [h4, exceptBind_error] at ht; exact Except.noConfusion ht
        | ok v4 =>
          simp only [h4, exceptBind_ok] at ht
          cases h5 : (call_gemini_api net key insights_prompt).ret with
          | error e => simp only [h5, exceptBind_error] at ht; exact Except.noConfusion ht
          | ok v5 =>
            simp only [h5, exceptBind_ok] at ht
            injection ht with ht
            subst ht
            exact ⟨rfl, rfl, rfl, rfl, rfl, rfl, rfl, rfl⟩

set_option maxRecDepth 8192 in
/-- C2 (counterexample): in a run where every call returns the text "ZQZQ",
stage 3's prompt is the fixed metrics text and does not contain stage 2's
result "ZQZQ", refuting the claim for N = 3. -/
theorem stage3PromptOmitsStage2Result :
    (runPipeline netZQ "k" dfAB).map (fun t => (t.r2, t.p3, strContains t.p3 "ZQZQ"))
      = Except.ok (Json.str "ZQZQ", metrics_prompt, false) := by rfl

/-- C2 (amended): stage 2's prompt embeds stage 1's result verbatim and
stage 4's prompt embeds stage 3's result verbatim; stage 3's and stage 5's
prompts are fixed instruction texts that embed no prior stage's result. -/
theorem promptEmbedsPriorResult :
    (∀ s : String, strContains (cleaning_prompt (Json.str s)) s = true) ∧
    (∀ s : String, strContains (analysis_prompt (Json.str s)) s = true) ∧
    (∀ (net : HttpRequest → HttpResponse) (key : String) (df : DataFrame) (t : Trace),
      runPipeline net key df = Except.ok t →
      t.p2 = cleaning_prompt t.r1 ∧ t.p3 = metrics_prompt ∧
      t.p4 = analysis_prompt t.r3 ∧ t.p5 = insights_prompt) := by
  refine ⟨?_, ?_, ?_⟩
  · intro s
    exact strContains_middle "Given this data profile:\n" s
      "\nSuggest cleaning steps and apply them. Return python code for cleaning and a summary of changes."
  · intro s
    exact strContains_middle "Given the data and metrics:\n" s
      "\nPerform exploratory data analysis and highlight hidden patterns, outliers, or unusual trends."
  · intro net key df t ht
    obtain ⟨-, -, hp2, hp3, hp4, hp5, -, -⟩ := runPipeline_ok_shape net key df t ht
    exact ⟨hp2, hp3, hp4, hp5⟩

/-- Witness for the amended prompt-embedding theorem at a concrete run. -/
theorem promptEmbedsPriorResultWitness :
    strContains (cleaning_prompt (Json.str "xyz")) "xyz" = true ∧
    strContains (analysis_prompt (Json.str "xyz")) "xyz" = true ∧
    (runPipeline netZQ "k" dfAB = Except.ok traceZQ ∧ traceZQ.p3 = metrics_prompt) :=
  ⟨promptEmbedsPriorResult.1 "xyz",
   promptEmbedsPriorResult.2.1 "xyz",
   rfl, (promptEmbedsPriorResult.2.2 netZQ "k" dfAB traceZQ rfl).2.1⟩

/-- C4: on a 200 response whose JSON body contains the candidates path, the
call returns exactly that first text part with no error shown; and in every
completed run each stage's `st.write` output is exactly that stage's
returned StageResult. -/
theorem callReturnsExtractedText :
    (∀ (net : HttpRequest → HttpResponse) (key prompt : String) (body v : Json),
      (net (geminiRequest key prompt)).status_code = 200 →
      (net (geminiRequest key prompt)).json = some body →
      extractText body = some v →
      call_gemini_api net key prompt = { errorsShown := [], ret := Except.ok v }) ∧
    (∀ (net : HttpRequest → HttpResponse) (key : String) (df : DataFrame) (t : Trace),
      runPipeline net key df = Except.ok t →
      t.writes = [t.r1, t.r2, t.r3, t.r4, t.r5]) := by
  constructor
  · intro net key prompt body v h200 hjson hex
    simp [call_gemini_api, h200, hjson, hex]
  · intro net key df t ht
    exact (runPipeline_ok_shape net key df t ht).2.2.2.2.2.2.1

/-- Witness: the extraction theorem applied to the concrete 200 network. -/
theorem callReturnsExtractedTextWitness :
    call_gemini_api netZQ "k" "p" = { errorsShown := [], ret := Except.ok (Json.str "ZQZQ") } :=
  callReturnsExtractedText.1 netZQ "k" "p" (okBody "ZQZQ") (Json.str "ZQZQ") rfl rfl rfl

/-- C5 (counterexample): a 200 response whose JSON body lacks the
candidates path makes the call raise a lookup error instead of returning,
so "returns a string if and only if the status was 200" fails
right-to-left. -/
theorem malformed200RaisesInsteadOfReturning :
    (netMalformed (geminiRequest "k" "p")).status_code = 200 ∧
    (call_gemini_api netMalformed "k" "p").ret = Except.error "LookupError" :=
  ⟨rfl, rfl⟩

/-- C5 (amended): on any non-200 status the call shows exactly one error
message containing the raw response body verbatim and returns the `None`
sentinel; and the call returns a string precisely when the status was 200
and the body's candidates path holds a string — on a 200 response without
that path it raises instead of returning. -/
theorem callErrorBehaviour :
    (∀ (net : HttpRequest → HttpResponse) (key prompt : String),
      (net (geminiRequest key prompt)).status_code ≠ 200 →
      (call_gemini_api net key prompt).errorsShown
          = ["Gemini API Error: " ++ (net (geminiRequest key prompt)).text] ∧
      strContains ("Gemini API Error: " ++ (net (geminiRequest key prompt)).text)
          ((net (geminiRequest key prompt)).text) = true ∧
      (call_gemini_api net key prompt).ret = Except.ok Json.null) ∧
    (∀ (net : HttpRequest → HttpResponse) (key prompt : String),
      (∃ s, (call_gemini_api net key prompt).ret = Except.ok (Json.str s)) ↔
      ((net (geminiRequest key prompt)).status_code = 200 ∧
        ∃ body s, (net (geminiRequest key prompt)).json = some body ∧
          extractText body = some (Json.str s))) := by
  constructor
  · intro net key prompt hs
    refine ⟨?_, ?_, ?_⟩
    · rw [call_ret_non200 net key prompt hs]
    · have := strContains_middle "Gemini API Error: " ((net (geminiRequest key prompt)).text) ""
      rwa [String.append_empty] at this
    · rw [call_ret_non200 net key prompt hs]
  · intro net key prompt
    constructor
    · rintro ⟨s, hs⟩
      by_cases h200 : (net (geminiRequest key prompt)).status_code = 200
      · refine ⟨h200, ?_⟩
        cases hjson : (net (geminiRequest key prompt)).json with
        | none => simp [call_gemini_api, h200, hjson] at hs
        | some body =>
          cases hex : extractText body with
          | none => simp [call_gemini_api, h200, hjson, hex] at hs
          | some v =>
            simp [call_gemini_api, h200, hjson, hex] at hs
            refine ⟨body, s, rfl, ?_⟩
            rw [hex, hs]
      · rw [congrArg CallOutcome.ret (call_ret_non200 net key prompt h200)] at hs
        simp at hs
    · rintro ⟨h200, body, s, hjson, hex⟩
      exact ⟨s, by simp [call_gemini_api, h200, hjson, hex]⟩

/-- Witness: the non-200 behaviour at the concrete failing network. -/
theorem callErrorBehaviourWitness :
    (netFail (geminiRequest "k" "p")).status_code ≠ 200 ∧
    (call_gemini_api netFail "k" "p").errorsShown = ["Gemini API Error: backend down"] ∧
    (call_gemini_api netFail "k" "p").ret = Except.ok Json.null :=
  ⟨by decide,
   (callErrorBehaviour.1 netFail "k" "p" (by decide)).1,
   (callErrorBehaviour.1 netFail "k" "p" (by decide)).2.2⟩

/-- C6: with an empty credential or no uploaded file the script shows the
warning, runs no pipeline stage, and its outcome does not depend on the
network (no network call can occur); conversely a pipeline run is reachable
only with a non-empty credential, an uploaded file and the trigger button
pressed. -/
theorem pipelineGate :
    (∀ (net net2 : HttpRequest → HttpResponse) (key : String) (f : Option UploadedFile) (btn : Bool),
      key = "" ∨ f = none →
      (appScript net key f btn).warnings = [gateWarning] ∧
      (appScript net key f btn).ran = none ∧
      appScript net key f btn = appScript net2 key f btn) ∧
    (∀ (net : HttpRequest → HttpResponse) (key : String) (f : Option UploadedFile) (btn : Bool),
      (appScript net key f btn).ran ≠ none →
      key ≠ "" ∧ f ≠ none ∧ btn = true) := by
  constructor
  · rintro net net2 key f btn (hk | hf)
    · cases f with
      | none => exact ⟨rfl, rfl, rfl⟩
      | some file =>
        subst hk
        exact ⟨by simp [appScript], by simp [appScript], by simp [appScript]⟩
    · subst hf
      exact ⟨rfl, rfl, rfl⟩
  · intro net key f btn h
    cases f with
    | none => simp [appScript] at h
    | some file =>
      by_cases hk : key = ""
      · simp [appScript, hk] at h
      · by_cases hb : btn = true
        · exact ⟨hk, by simp, hb⟩
        · simp [appScript, hk, hb] at h

/-- Witness: the gate at a concrete empty credential with an uploaded
file. -/
theorem pipelineGateWitness :
    (appScript netZQ "" (some { name := "data.csv", table := dfAB }) true).warnings
        = [gateWarning] ∧
    (appScript netZQ "" (some { name := "data.csv", table := dfAB }) true).ran = none ∧
    appScript netZQ "" (some { name := "data.csv", table := dfAB }) true
        = appScript netFail "" (some { name := "data.csv", table := dfAB }) true :=
  pipelineGate.1 netZQ netFail "" (some { name := "data.csv", table := dfAB }) true (Or.inl rfl)

/-- C9: the run reads only the dataset's column names and first rows (first
2 for the stage-1 prompt, first 10 for the on-screen preview) and never
changes or writes it: two datasets agreeing on columns and first ten rows
produce identical runs. -/
theorem pipelineReadsOnlyHead (net : HttpRequest → HttpResponse) (key : String)
    (df df2 : DataFrame) (hc : df.columns = df2.columns)
    (hr : df.rows.take 10 = df2.rows.take 10) :
    runPipeline net key df = runPipeline net key df2 := by
  have h2 : df.rows.take 2 = df2.rows.take 2 := by
    have := congrArg (List.take 2) hr
    simpa [List.take_take] using this
  have hp : profile_prompt df = profile_prompt df2 := by
    simp [profile_prompt, DataFrame.head, DataFrame.to_csv, hc, h2]
  have hh : df.head 10 = df2.head 10 := by
    simp [DataFrame.head, hc, hr]
  unfold runPipeline
  rw [hp, hh]

/-- A dataset with eleven rows. -/
def dfLong : DataFrame :=
  { columns := ["a"]
    rows := [["1"], ["2"], ["3"], ["4"], ["5"], ["6"], ["7"], ["8"], ["9"], ["10"], ["11"]] }

/-- The same dataset with a different eleventh row. -/
def dfLong2 : DataFrame :=
  { columns := ["a"]
    rows := [["1"], ["2"], ["3"], ["4"], ["5"], ["6"], ["7"], ["8"], ["9"], ["10"], ["XX"]] }

/-- Witness: two concrete datasets differing only past row ten give the
same run. -/
theorem pipelineReadsOnlyHeadWitness :
    dfLong.columns = dfLong2.columns ∧
    dfLong.rows.take 10 = dfLong2.rows.take 10 ∧
    runPipeline netFail "k" dfLong = runPipeline netFail "k" dfLong2 :=
  ⟨rfl, rfl, pipelineReadsOnlyHead netFail "k" dfLong dfLong2 rfl rfl⟩

/-- C8: document export never raises on report strings of printable ASCII
(newlines included): it returns an in-memory buffer with at least one page,
and automatic page breaks make it exceed one page exactly when the wrapped
cells overflow a page's capacity. -/
theorem createPdfTotalOnPrintable (t : String)
    (h : ∀ c ∈ t.data, printableAscii c = true ∨ c = '\n') :
    ∃ b, create_pdf t = Except.ok b ∧ 0 < b.pages.length ∧
      (cellsPerPage < (pdfCells t).length → 1 < b.pages.length) := by
  have hall : ((splitLines t.data).all fun line => line.all latin1Encodable) = true := by
    rw [List.all_eq_true]
    intro line hline
    rw [List.all_eq_true]
    intro c hc
    have hcin := mem_of_mem_splitLines t.data line hline c hc
    rcases h c hcin with hp | hn
    · simp only [printableAscii, Bool.and_eq_true, decide_eq_true_eq] at hp
      simp only [latin1Encodable, decide_eq_true_eq]
      omega
    · subst hn
      rfl
  refine ⟨{ pages := if (pdfCells t).isEmpty then [[]]
              else chunksSucc (cellsPerPage - 1) (pdfCells t) }, ?_, ?_, ?_⟩
  · unfold create_pdf
    rw [if_pos hall]
  · by_cases he : (pdfCells t).isEmpty
    · simp [he]
    · simp only [if_neg he]
      have hne : pdfCells t ≠ [] := by
        intro hh
        rw [hh] at he
        exact he rfl
      exact List.length_pos.mpr (chunksSucc_ne_nil (cellsPerPage - 1) (pdfCells t) hne)
  · intro hlen
    have hne : ¬(pdfCells t).isEmpty = true := by
      intro hh
      rw [List.isEmpty_iff] at hh
      rw [hh] at hlen
      simp [cellsPerPage] at hlen
    simp only [if_neg hne]
    cases hcells : pdfCells t with
    | nil =>
      rw [hcells] at hlen
      simp [cellsPerPage] at hlen
    | cons x xs =>
      have hx : cellsPerPage - 1 < xs.length := by
        rw [hcells] at hlen
        simp only [List.length_cons, cellsPerPage] at hlen ⊢
        omega
      exact chunksSucc_length_gt (cellsPerPage - 1) x xs hx

/-- Witness: export of a concrete two-line printable report. -/
theorem createPdfTotalOnPrintableWitness :
    (∀ c ∈ ("hello\nworld" : String).data, printableAscii c = true ∨ c = '\n') ∧
    (∃ b, create_pdf "hello\nworld" = Except.ok b ∧ 0 < b.pages.length ∧
      (cellsPerPage < (pdfCells "hello\nworld").length → 1 < b.pages.length)) :=
  ⟨by decide, createPdfTotalOnPrintable "hello\nworld" (by decide)⟩
